import Mathlib

/-!
# Braking-distance simulation: a shallow embedding of src/script.js

The script drives a 2D braking demo on top of an external physics backend
(Matter.js).  The script-side state is a set of module-level mutable
variables; the behaviour is four handlers:

* `resetWorld`        (script.js lines 99-178): world rebuild / reset,
* `startSimulation`   (lines 244-259): the start button,
* `handleUpdate`      (lines 261-322): the per-tick `beforeUpdate` callback,
* `handleCollision`   (lines 324-343): the `collisionStart` callback,
* `finishSimulation`  (lines 345-377): run finalization / history recording.

We model the script state as a record `SimState` over exact rationals and
each handler as a pure function.  The physics backend itself (body
creation, collision geometry, the integrator) is external to the
repository; the only backend behaviour the claims need is the fixed-step
integration of the applied braking force, modelled in `integrate` below
from the spec's description of the backend boundary.
-/

namespace StopSim

/-- Road-surface condition; the script keys these as the strings
`sunny` (dry), `rainy` (wet), `icy`. -/
inductive Weather : Type
  | sunny
  | rainy
  | icy
deriving DecidableEq, Repr

/-- `const SCALE = 10` (script.js line 12): 10 px = 1 m. -/
def SCALE : ℚ := 10

/-- `const CAR_MASS = 1000` (line 13). -/
def CAR_MASS : ℚ := 1000

/-- `const BRAKE_LINE_X = 150` (line 14). -/
def BRAKE_LINE_X : ℚ := 150

/-- `startPos = { x: -100, y: 0 }` (line 57): the car starts off-screen. -/
def startPosX : ℚ := -100

/-- `SPEED_MAP` (lines 20-24): UI speed class (km/h) to internal velocity.
Keys other than 30/60/100 never occur in the script; they map to 0 here. -/
def SPEED_MAP (speed : ℕ) : ℚ :=
  match speed with
  | 30 => 8
  | 60 => 15
  | 100 => 22
  | _ => 0

/-- `FRICTION_MAP` (lines 26-30): ground surface friction per weather.
Only used when building the static ground body; it never enters the
script-side dynamics (the car body has friction 0). -/
def FRICTION_MAP (w : Weather) : ℚ :=
  match w with
  | .sunny => 8/10
  | .rainy => 4/10
  | .icy => 5/100

/-- `BRAKING_FORCE_MAP` (lines 34-38): braking force multiplier per weather. -/
def BRAKING_FORCE_MAP (w : Weather) : ℚ :=
  match w with
  | .sunny => 15/100
  | .rainy => 8/100
  | .icy => 2/100

/-- One row of the history table (`addToHistory`, lines 379-395):
speed label, weather label, distance (in metres, one decimal), outcome. -/
structure HistEntry : Type where
  speed : ℕ
  weather : Weather
  distance : ℚ
  crashed : Bool
deriving DecidableEq, Repr

/-- The script's module-level mutable state (lines 16, 46-58) plus the
two DOM outputs the claims mention (the start button's disabled state and
the result overlay) and the viewport position set through
`Matter.Render.lookAt` (we record the `min.x` of the viewport). -/
structure SimState : Type where
  currentSpeed : ℕ
  currentWeather : Weather
  currentObstacleDistance : ℚ
  lowSpeedCounter : ℕ
  hasCrashed : Bool
  hasFinished : Bool
  isRunning : Bool
  brakingStarted : Bool
  startEnabled : Bool
  carPos : ℚ
  carVel : ℚ
  viewMin : ℚ
  history : List HistEntry
  result : Option (ℚ × Bool)
deriving DecidableEq, Repr

/-- `.toFixed(1)` on a non-negative number: round to one decimal place. -/
def toFixed1 (q : ℚ) : ℚ := (round (q * 10) : ℤ) / 10

/-- `resetWorld` (lines 99-178): clears the world, resets the run flags,
hides the result overlay, re-enables the start button, rebuilds the bodies
(the car at `startPos` with zero velocity) and re-centers the viewport.
Note that `lowSpeedCounter` and `history` are left untouched. -/
def resetWorld (s : SimState) : SimState :=
  { s with
    brakingStarted := false
    isRunning := false
    hasCrashed := false
    hasFinished := false
    result := none
    startEnabled := true
    carPos := startPosX
    carVel := 0
    viewMin := startPosX - 200 }

/-- `startSimulation` (lines 244-259): ignored while a run is active;
otherwise resets the counter and the crash/finish flags, disables the
start button and launches the car at the configured cruise speed. -/
def startSimulation (s : SimState) : SimState :=
  if s.isRunning = true then s
  else
    { s with
      isRunning := true
      lowSpeedCounter := 0
      hasCrashed := false
      hasFinished := false
      startEnabled := false
      carVel := SPEED_MAP s.currentSpeed }

/-- `finishSimulation` (lines 345-377): finalize a run.  The first branch
is the late-crash-upgrade path (lines 347-355, which only re-shows the
result overlay); the second ignores duplicate calls; the third records the
outcome: it computes the braking distance from the brake line, appends a
history row (newest first) and shows the result. -/
def finishSimulation (crashed : Bool) (s : SimState) : SimState :=
  if s.hasFinished = true ∧ crashed = true ∧ s.hasCrashed = false then
    { s with
      hasCrashed := true
      result := some (toFixed1 (max 0 (s.carPos - BRAKE_LINE_X) / SCALE), true) }
  else if s.hasFinished = true then s
  else
    let s1 := if crashed = true then { s with hasCrashed := true } else s
    let distanceM := toFixed1 (max 0 (s1.carPos - BRAKE_LINE_X) / SCALE)
    { s1 with
      hasFinished := true
      isRunning := false
      history := ⟨s1.currentSpeed, s1.currentWeather, distanceM, crashed⟩ :: s1.history
      result := some (distanceM, crashed) }

/-- The braking force applied after the brake line (lines 290-301):
two regimes keyed on the signed x-velocity, no force at or below 0.01. -/
def brakeForceOn (bf v : ℚ) : ℚ :=
  if v > 1/2 then -v * bf * CAR_MASS * (1/1000)
  else if v > 1/100 then -v * bf * CAR_MASS * (1/100)
  else 0

/-- Camera follow (lines 264-274): the viewport keeps the car 200 px
from its left edge. -/
def cameraStep (s : SimState) : SimState := { s with viewMin := s.carPos - 200 }

/-- Brake-line latch (lines 276-279): the first tick whose position has
reached `BRAKE_LINE_X` sets `brakingStarted`, one-way. -/
def latchStep (s : SimState) : SimState :=
  if s.brakingStarted = false ∧ BRAKE_LINE_X ≤ s.carPos then
    { s with brakingStarted := true }
  else s

/-- Engine or brakes (lines 281-302): before the brake line the cruise
speed is re-asserted as a floor; after it the two-regime braking force is
applied (returned as the accumulated x-force on the body). -/
def driveStep (s : SimState) : SimState × ℚ :=
  if s.brakingStarted = false then
    (if s.carVel < SPEED_MAP s.currentSpeed then
      { s with carVel := SPEED_MAP s.currentSpeed }
     else s, 0)
  else (s, brakeForceOn (BRAKING_FORCE_MAP s.currentWeather) s.carVel)

/-- Stop detection (lines 304-321): once braking has started and the run
is neither crashed nor finished, a tick with speed below 0.3 bumps the
low-speed counter and — when the counter passes 30 or the speed is below
0.05 — forces the velocity to zero and finalizes as a safe stop; a tick
with speed at least 0.3 resets the counter. -/
def stopStep (s : SimState) : SimState :=
  if s.brakingStarted = true ∧ s.hasCrashed = false ∧ s.hasFinished = false then
    if |s.carVel| < 3/10 then
      if 30 < s.lowSpeedCounter + 1 ∨ |s.carVel| < 1/20 then
        finishSimulation false
          { s with lowSpeedCounter := s.lowSpeedCounter + 1, carVel := 0 }
      else { s with lowSpeedCounter := s.lowSpeedCounter + 1 }
    else { s with lowSpeedCounter := 0 }
  else s

/-- `handleUpdate` (lines 261-322), the per-tick `beforeUpdate` callback.
Returns the updated script state together with the x-force accumulated on
the car body through `Body.applyForce` during the callback.  Steps, in
source order: early return when not running; camera follow; brake-line
latch; cruise-speed floor before the line or braking force after it; stop
detection (counter, forced stop and finalization). -/
def handleUpdate (s : SimState) : SimState × ℚ :=
  if s.isRunning = false then (s, 0)
  else
    let sf := driveStep (latchStep (cameraStep s))
    (stopStep sf.1, sf.2)

/-- Modelled from the spec: the physics backend's fixed-step integration
(the Matter.js engine, an external collaborator outside this repository).
Per the spec's backend boundary the engine integrates the applied force
into the body's velocity and the velocity into its position once per tick
while a run is active; a run that has just been finalized had its velocity
forced to exactly zero and the body is treated as at rest from then on. -/
def integrate (sf : SimState × ℚ) : SimState :=
  if sf.1.isRunning = true then
    let v := sf.1.carVel + sf.2 / CAR_MASS
    { sf.1 with carVel := v, carPos := sf.1.carPos + v }
  else sf.1

/-- One full engine tick: the `beforeUpdate` callback followed by the
backend integration step. -/
def engineTick (s : SimState) : SimState := integrate (handleUpdate s)

/-- The loop body of `handleCollision` (lines 331-342): scan the colliding
pairs in order; on the first pair whose labels are exactly car and dummy
(in either order) set the crash flag and finalize as a crash, returning
immediately. -/
def collideLoop (s : SimState) (pairs : List (String × String)) : SimState :=
  match pairs with
  | [] => s
  | (a, b) :: rest =>
    if (a = "car" ∧ b = "dummy") ∨ (b = "car" ∧ a = "dummy") then
      finishSimulation true { s with hasCrashed := true }
    else collideLoop s rest

/-- `handleCollision` (lines 324-343): the `collisionStart` callback.
Short-circuits once a crash has been recorded; deliberately has no
`isRunning` or `hasFinished` guard (source comment, lines 328-329). -/
def handleCollision (s : SimState) (pairs : List (String × String)) : SimState :=
  if s.hasCrashed = true then s else collideLoop s pairs

/-- The external stimuli the script reacts to: the reset control, the
start control, an engine tick, and a backend collision notification
carrying the list of colliding label pairs. -/
inductive SimEvent : Type
  | reset
  | start
  | tick
  | collide (pairs : List (String × String))

/-- Dispatch one event to its handler. -/
def step (s : SimState) (e : SimEvent) : SimState :=
  match e with
  | .reset => resetWorld s
  | .start => startSimulation s
  | .tick => engineTick s
  | .collide ps => handleCollision s ps

/-- Run a sequence of events from a state. -/
def runEvents (s : SimState) (es : List SimEvent) : SimState := es.foldl step s

/-- Does an event carry a collision notification whose pair is exactly
the vehicle and the obstacle, in either order? -/
def hasCarDummyPair (e : SimEvent) : Bool :=
  match e with
  | .collide ps =>
    ps.any (fun p => ((p.1 == "car") && (p.2 == "dummy")) || ((p.2 == "car") && (p.1 == "dummy")))
  | _ => false

/-- The freshly loaded script state for a given configuration: flags
clear, empty history, car off-screen (lines 16, 46-58). -/
def initState (sp : ℕ) (w : Weather) (d : ℚ) : SimState :=
  { currentSpeed := sp
    currentWeather := w
    currentObstacleDistance := d
    lowSpeedCounter := 0
    hasCrashed := false
    hasFinished := false
    isRunning := false
    brakingStarted := false
    startEnabled := true
    carPos := startPosX
    carVel := 0
    viewMin := startPosX - 200
    history := []
    result := none }

/-- Iterate `n` engine ticks. -/
def runTicks : ℕ → SimState → SimState
  | 0, s => s
  | n + 1, s => engineTick (runTicks n s)

/-- A full collision-free run: reset the world for the configuration,
press start, then let the engine tick `n` times. -/
def runSim (sp : ℕ) (w : Weather) (d : ℚ) (n : ℕ) : SimState :=
  runTicks n (startSimulation (resetWorld (initState sp w d)))

/-- The braking distance the script would record for a state, in metres:
`max(0, carPos - BRAKE_LINE_X) / SCALE` rounded to one decimal
(lines 366-371). -/
def distView (s : SimState) : ℚ := toFixed1 (max 0 (s.carPos - BRAKE_LINE_X) / SCALE)

/-- The history row `finishSimulation` appends for a safe stop at the
state's current position. -/
def finEntry (s : SimState) : HistEntry :=
  ⟨s.currentSpeed, s.currentWeather, distView s, false⟩

end StopSim

namespace StopSim

/-! ## Concrete states used as counterexamples and witnesses -/

/-- A run that has just been finalized as a safe stop (as `finishSimulation
false` leaves it: finished, not crashed, not running, one safe history
row), before any reset. -/
def safeStopState : SimState :=
  { currentSpeed := 60
    currentWeather := .sunny
    currentObstacleDistance := 400
    lowSpeedCounter := 31
    hasCrashed := false
    hasFinished := true
    isRunning := false
    brakingStarted := true
    startEnabled := false
    carPos := 260
    carVel := 0
    viewMin := 60
    history := [⟨60, .sunny, 11, false⟩]
    result := some (11, false) }

/-- A mid-run state just after the brake line with a negative x-velocity
(the car bouncing backwards), used against the force-law claim. -/
def negVelState : SimState :=
  { initState 60 .sunny 400 with
    isRunning := true
    brakingStarted := true
    startEnabled := false
    carPos := 200
    carVel := -1 }

/-- A mid-run braking state whose velocity is already below the immediate
stop threshold, so the next tick finalizes the run. -/
def nearStopState : SimState :=
  { initState 60 .sunny 400 with
    isRunning := true
    brakingStarted := true
    startEnabled := false
    carPos := 260
    carVel := 0 }

/-- An idle state whose low-speed counter is stale (7), used against the
claim that the world reset clears the counter. -/
def staleCounterState : SimState :=
  { initState 60 .sunny 400 with lowSpeedCounter := 7 }

/-- A mid-run braking state cruising well above the stop thresholds. -/
def midBrakeState : SimState :=
  { initState 60 .sunny 400 with
    isRunning := true
    brakingStarted := true
    startEnabled := false
    carPos := 200
    carVel := 10 }

/-! ## Invariant for comparing two collision-free runs

To compare a run on a higher braking coefficient (state 1) with a run on
a lower one (state 2) we track a simulation relation: either the two
runs are still in lock-step before the brake line (`InvA`), or run 1 has
already finalized (`InvB`), or both are braking with run 1 at most as
fast and at least as far through its low-speed count (`InvC`). -/

/-- Lock-step phase: both runs are identical in every dynamic respect
and braking has not started. -/
def InvA (s1 s2 : SimState) : Prop :=
  s1.hasFinished = false ∧ s2.hasFinished = false ∧
  s1.brakingStarted = false ∧ s2.brakingStarted = false ∧
  s1.carPos = s2.carPos ∧ s1.carVel = s2.carVel ∧ 0 ≤ s1.carVel ∧
  s1.lowSpeedCounter = s2.lowSpeedCounter ∧ s1.isRunning = s2.isRunning

/-- Run 1 has finalized; run 2, if still unfinished, is braking with a
non-negative velocity. -/
def InvB (s1 s2 : SimState) : Prop :=
  s1.hasFinished = true ∧
  (s2.hasFinished = false → s2.brakingStarted = true ∧ 0 ≤ s2.carVel)

/-- Both runs are braking: run 1 is at most as fast as run 2 (but still
above the no-force threshold) and its low-speed counter is at least as
large. -/
def InvC (s1 s2 : SimState) : Prop :=
  s1.hasFinished = false ∧ s2.hasFinished = false ∧
  s1.brakingStarted = true ∧ s2.brakingStarted = true ∧
  s1.isRunning = true ∧ s2.isRunning = true ∧
  1/100 < s1.carVel ∧ s1.carVel ≤ s2.carVel ∧
  s2.lowSpeedCounter ≤ s1.lowSpeedCounter

/-- The full simulation relation between the two runs: common facts
(same speed class, no crashes, ordered positions, history determined by
the finished flag, run 1 finalizes first) plus one of the three phases. -/
structure Inv (s1 s2 : SimState) : Prop where
  speed_eq : s1.currentSpeed = s2.currentSpeed
  crash1 : s1.hasCrashed = false
  crash2 : s2.hasCrashed = false
  pos_le : s1.carPos ≤ s2.carPos
  fin1_frozen : s1.hasFinished = true → s1.isRunning = false ∧ s1.history = [finEntry s1]
  hist1_empty : s1.hasFinished = false → s1.history = []
  fin2_frozen : s2.hasFinished = true → s2.isRunning = false ∧ s2.history = [finEntry s2]
  hist2_empty : s2.hasFinished = false → s2.history = []
  fin_imp : s2.hasFinished = true → s1.hasFinished = true
  phase : InvA s1 s2 ∨ InvB s1 s2 ∨ InvC s1 s2

/-! ## Basic lemmas about the recorded distance -/

theorem toFixed1_nonneg (q : ℚ) (hq : 0 ≤ q) : 0 ≤ toFixed1 q := by
  unfold toFixed1
  have h1 : (0 : ℤ) ≤ round (q * 10) := by
    rw [round_eq]
    exact Int.le_floor.mpr (by push_cast; linarith)
  exact div_nonneg (by exact_mod_cast h1) (by norm_num)

theorem toFixed1_mono (p q : ℚ) (h : p ≤ q) : toFixed1 p ≤ toFixed1 q := by
  unfold toFixed1
  have h1 : round (p * 10) ≤ round (q * 10) := by
    rw [round_eq, round_eq]
    exact Int.floor_le_floor (by linarith)
  have h2 : ((round (p * 10) : ℤ) : ℚ) ≤ ((round (q * 10) : ℤ) : ℚ) := by exact_mod_cast h1
  linarith

end StopSim

namespace StopSim

/-! ## Component lemmas for `finishSimulation` -/

theorem finish_isRunning (c : Bool) (s : SimState) (h : s.isRunning = false) :
    (finishSimulation c s).isRunning = false := by
  unfold finishSimulation
  cases c <;> cases hf : s.hasFinished <;> cases hc : s.hasCrashed <;> simp [hf, hc, h]

theorem finish_startEnabled (c : Bool) (s : SimState) :
    (finishSimulation c s).startEnabled = s.startEnabled := by
  unfold finishSimulation
  cases c <;> cases hf : s.hasFinished <;> cases hc : s.hasCrashed <;> simp [hf, hc]

theorem finish_false_hasCrashed (s : SimState) :
    (finishSimulation false s).hasCrashed = s.hasCrashed := by
  unfold finishSimulation
  cases hf : s.hasFinished <;> cases hc : s.hasCrashed <;> simp [hf, hc]

theorem finish_hasFinished (c : Bool) (s : SimState) :
    (finishSimulation c s).hasFinished = true ∨ finishSimulation c s = s := by
  unfold finishSimulation
  cases c <;> cases hf : s.hasFinished <;> cases hc : s.hasCrashed <;> simp [hf, hc]

end StopSim

namespace StopSim

/-! ## Component lemmas for the tick and collision handlers -/

theorem handleUpdate_not_running (s : SimState) (h : s.isRunning = false) :
    handleUpdate s = (s, 0) := by
  unfold handleUpdate
  simp [h]

theorem engineTick_not_running (s : SimState) (h : s.isRunning = false) :
    engineTick s = s := by
  unfold engineTick
  rw [handleUpdate_not_running s h]
  unfold integrate
  simp [h]

theorem stopStep_startEnabled (s : SimState) :
    (stopStep s).startEnabled = s.startEnabled := by
  unfold stopStep
  split_ifs <;> simp [finish_startEnabled]

theorem stopStep_hasCrashed (s : SimState) :
    (stopStep s).hasCrashed = s.hasCrashed := by
  unfold stopStep
  split_ifs with h1 <;> simp [finish_false_hasCrashed]

theorem driveStep_startEnabled (s : SimState) :
    (driveStep s).1.startEnabled = s.startEnabled := by
  unfold driveStep
  split_ifs <;> rfl

theorem driveStep_hasCrashed (s : SimState) :
    (driveStep s).1.hasCrashed = s.hasCrashed := by
  unfold driveStep
  split_ifs <;> rfl

theorem latchStep_startEnabled (s : SimState) :
    (latchStep s).startEnabled = s.startEnabled := by
  unfold latchStep
  split_ifs <;> rfl

theorem latchStep_hasCrashed (s : SimState) :
    (latchStep s).hasCrashed = s.hasCrashed := by
  unfold latchStep
  split_ifs <;> rfl

theorem handleUpdate_startEnabled (s : SimState) :
    (handleUpdate s).1.startEnabled = s.startEnabled := by
  unfold handleUpdate
  split_ifs
  · rfl
  · rw [stopStep_startEnabled, driveStep_startEnabled, latchStep_startEnabled]
    rfl

theorem handleUpdate_hasCrashed (s : SimState) :
    (handleUpdate s).1.hasCrashed = s.hasCrashed := by
  unfold handleUpdate
  split_ifs
  · rfl
  · rw [stopStep_hasCrashed, driveStep_hasCrashed, latchStep_hasCrashed]
    rfl

theorem integrate_startEnabled (sf : SimState × ℚ) :
    (integrate sf).startEnabled = sf.1.startEnabled := by
  unfold integrate
  split_ifs <;> rfl

theorem integrate_hasCrashed (sf : SimState × ℚ) :
    (integrate sf).hasCrashed = sf.1.hasCrashed := by
  unfold integrate
  split_ifs <;> rfl

theorem engineTick_startEnabled (s : SimState) :
    (engineTick s).startEnabled = s.startEnabled := by
  unfold engineTick
  rw [integrate_startEnabled, handleUpdate_startEnabled]

theorem engineTick_hasCrashed (s : SimState) :
    (engineTick s).hasCrashed = s.hasCrashed := by
  unfold engineTick
  rw [integrate_hasCrashed, handleUpdate_hasCrashed]

theorem collideLoop_startEnabled (s : SimState) (ps : List (String × String)) :
    (collideLoop s ps).startEnabled = s.startEnabled := by
  induction ps with
  | nil => rfl
  | cons p rest ih =>
    obtain ⟨a, b⟩ := p
    unfold collideLoop
    split_ifs with h
    · rw [finish_startEnabled]
    · exact ih

theorem collideLoop_isRunning (s : SimState) (ps : List (String × String))
    (h : s.isRunning = false) : (collideLoop s ps).isRunning = false := by
  induction ps with
  | nil => exact h
  | cons p rest ih =>
    obtain ⟨a, b⟩ := p
    unfold collideLoop
    split_ifs with hm
    · exact finish_isRunning true _ h
    · exact ih

end StopSim

namespace StopSim

/-! ## Claim C1: the late-crash upgrade -/

/-- C1.  The claim says that after a safe finalization a collision
notification for the pair (vehicle, obstacle) upgrades the recorded
outcome in place: `crashed` becomes true and the single history entry now
shows `crashed = true`.  Evaluating the code at exactly that input shows
otherwise: `handleCollision` sets the crash flag *before* calling
`finishSimulation(true)`, so the upgrade branch's `!hasCrashed` guard is
never satisfied; the call falls through to the duplicate-call guard and
returns.  The history still shows `crashed = false` and the result
overlay is untouched. -/
theorem c1_crash_after_safe_finalize_is_dropped :
    (handleCollision safeStopState [("car", "dummy")]).hasCrashed = true ∧
    (handleCollision safeStopState [("car", "dummy")]).history = [⟨60, .sunny, 11, false⟩] ∧
    (handleCollision safeStopState [("car", "dummy")]).result = some (11, false) ∧
    safeStopState.hasFinished = true ∧ safeStopState.hasCrashed = false := by
  refine ⟨?_, ?_, ?_, rfl, rfl⟩ <;> decide

/-! ## Claim C2: what the world reset clears -/

/-- C2, counterexample.  The claim says the world-build/reset operation
sets the low-speed persistence counter to 0; `resetWorld` leaves it
untouched (a state with counter 7 keeps counter 7). -/
theorem c2_reset_does_not_clear_counter :
    ¬((resetWorld staleCounterState).lowSpeedCounter = 0) := by decide

/-- C2, amended.  `resetWorld` resets the phase flags (braking not
started, run not running), the crashed flag and the finished flag, but
leaves the low-speed persistence counter unchanged; the counter is
instead reset to 0 by `startSimulation` when a run starts. -/
theorem c2_reset_resets_flags (s : SimState) :
    (resetWorld s).brakingStarted = false ∧
    (resetWorld s).isRunning = false ∧
    (resetWorld s).hasCrashed = false ∧
    (resetWorld s).hasFinished = false ∧
    (resetWorld s).lowSpeedCounter = s.lowSpeedCounter ∧
    (s.isRunning = false → (startSimulation s).lowSpeedCounter = 0) := by
  refine ⟨rfl, rfl, rfl, rfl, rfl, fun h => ?_⟩
  unfold startSimulation
  simp [h]

/-- Witness for C2's amended theorem at a concrete state. -/
theorem c2_reset_resets_flags_witness :
    (resetWorld staleCounterState).brakingStarted = false ∧
    (resetWorld staleCounterState).lowSpeedCounter = 7 ∧
    (startSimulation staleCounterState).lowSpeedCounter = 0 := by
  have h := c2_reset_resets_flags staleCounterState
  exact ⟨h.1, h.2.2.2.2.1.trans (by decide), h.2.2.2.2.2 (by decide)⟩

end StopSim


namespace StopSim

/-! ## Claim C3: the braking force law -/

/-- The force returned by a braking-phase tick is exactly the two-regime
law applied to the signed velocity. -/
theorem handleUpdate_force (s : SimState) (hrun : s.isRunning = true)
    (hb : s.brakingStarted = true) :
    (handleUpdate s).2 = brakeForceOn (BRAKING_FORCE_MAP s.currentWeather) s.carVel := by
  unfold handleUpdate
  rw [if_neg (by simp [hrun])]
  have h1 : latchStep (cameraStep s) = cameraStep s := by
    unfold latchStep
    rw [if_neg (by simp [cameraStep, hb])]
  rw [h1]
  unfold driveStep
  rw [if_neg (by simp [cameraStep, hb])]
  rfl

/-- In the two force regimes the force strictly opposes a positive
velocity. -/
theorem brakeForceOn_neg (bf v : ℚ) (hbf : 0 < bf) (hv : 1/100 < v) :
    brakeForceOn bf v < 0 := by
  unfold brakeForceOn CAR_MASS
  split_ifs <;> nlinarith

/-- C3, counterexample.  The claim keys the two force regimes on the
velocity *magnitude*.  At a braking-phase tick with velocity -1 the
magnitude exceeds 0.5, so the claimed law demands the k1-regime force
`-velocity * coefficient * mass * k1 = 0.15 ≠ 0`; the code, which keys on
the signed velocity, applies no force at all. -/
theorem c3_magnitude_law_fails_on_negative_velocity :
    |negVelState.carVel| > 1/2 ∧
    (handleUpdate negVelState).2 = 0 ∧
    ¬(-negVelState.carVel * BRAKING_FORCE_MAP negVelState.currentWeather
        * CAR_MASS * (1/1000) = 0) := by
  refine ⟨?_, ?_, ?_⟩
  · show |(-1 : ℚ)| > 1/2
    rw [abs_neg, abs_one]
    norm_num
  · rw [handleUpdate_force negVelState rfl rfl]
    show brakeForceOn (BRAKING_FORCE_MAP .sunny) (-1) = 0
    unfold brakeForceOn BRAKING_FORCE_MAP
    norm_num
  · show ¬(-(-1 : ℚ) * BRAKING_FORCE_MAP .sunny * CAR_MASS * (1/1000) = 0)
    unfold BRAKING_FORCE_MAP CAR_MASS
    norm_num

/-- C3, amended.  For every tick after the brake line has been crossed
the applied force follows the two-regime law keyed on the *signed*
velocity: if velocity > 0.5 the force is
`-velocity * brakingCoefficient * mass * 0.001`; if 0.01 < velocity ≤ 0.5
it is `-velocity * brakingCoefficient * mass * 0.01` (so k2 is ten times
k1); for velocity ≤ 0.01 — in particular for every negative velocity —
no force is applied.  In both force regimes the velocity is positive and
the force strictly negative, opposing the motion. -/
theorem c3_braking_force_signed_law (s : SimState) (hrun : s.isRunning = true)
    (hb : s.brakingStarted = true) :
    (handleUpdate s).2 =
      (if 1/2 < s.carVel then
        -s.carVel * BRAKING_FORCE_MAP s.currentWeather * CAR_MASS * (1/1000)
       else if 1/100 < s.carVel then
        -s.carVel * BRAKING_FORCE_MAP s.currentWeather * CAR_MASS * (1/100)
       else 0) ∧
    (1/100 < s.carVel → 0 < BRAKING_FORCE_MAP s.currentWeather →
      (handleUpdate s).2 < 0) := by
  constructor
  · rw [handleUpdate_force s hrun hb]
    unfold brakeForceOn
    rfl
  · intro hv hbf
    rw [handleUpdate_force s hrun hb]
    exact brakeForceOn_neg _ _ hbf hv

/-- Witness for C3's amended theorem: at a braking tick with velocity 10
the code applies the k1-regime force -1.5, which is negative. -/
theorem c3_braking_force_signed_law_witness :
    (handleUpdate midBrakeState).2 =
      -midBrakeState.carVel * BRAKING_FORCE_MAP midBrakeState.currentWeather
        * CAR_MASS * (1/1000) ∧
    (handleUpdate midBrakeState).2 < 0 := by
  have h := c3_braking_force_signed_law midBrakeState rfl rfl
  refine ⟨?_, h.2 (by norm_num [midBrakeState, initState])
    (by norm_num [midBrakeState, initState, BRAKING_FORCE_MAP])⟩
  rw [h.1]
  rw [if_pos (by norm_num [midBrakeState, initState])]

end StopSim

namespace StopSim

/-! ## Claim C5: the recorded braking distance -/

/-- C5.  The distance recorded at finalization is
`max(0, vehiclePosition - brakeLineReferencePosition)` divided by the
scale factor (10 simulation units per metre) rounded to one decimal, and
is therefore non-negative. -/
theorem c5_recorded_distance (s : SimState) (c : Bool) (h : s.hasFinished = false) :
    (finishSimulation c s).history =
      ⟨s.currentSpeed, s.currentWeather,
        toFixed1 (max 0 (s.carPos - BRAKE_LINE_X) / SCALE), c⟩ :: s.history ∧
    0 ≤ toFixed1 (max 0 (s.carPos - BRAKE_LINE_X) / SCALE) := by
  constructor
  · unfold finishSimulation
    cases c <;> simp [h]
  · refine toFixed1_nonneg _ (div_nonneg (le_max_left 0 _) ?_)
    unfold SCALE
    norm_num

/-- Witness for C5 at a concrete finalization: the car stopped at x = 200,
50 px past the line, recorded as 5.0 m. -/
theorem c5_recorded_distance_witness :
    (finishSimulation true midBrakeState).history = [⟨60, .sunny, 5, true⟩] ∧
    (0 : ℚ) ≤ 5 := by
  have h := c5_recorded_distance midBrakeState true rfl
  constructor
  · rw [h.1]
    norm_num [midBrakeState, initState, toFixed1, round_eq, BRAKE_LINE_X, SCALE]
  · norm_num

/-! ## Claim C6: idempotent finalization -/

/-- C6.  Finalization is idempotent: repeating `finishSimulation` with
the same crashed value is ignored, and a first finalization from an
unfinished run appends exactly one history entry. -/
theorem c6_finalize_idempotent (s : SimState) (c : Bool) :
    finishSimulation c (finishSimulation c s) = finishSimulation c s ∧
    (s.hasFinished = false →
      (finishSimulation c s).history.length = s.history.length + 1) := by
  constructor
  · cases c <;> cases hf : s.hasFinished <;> cases hc : s.hasCrashed <;>
      simp [finishSimulation, hf, hc]
  · intro h
    unfold finishSimulation
    cases c <;> simp [h]

/-- Witness for C6 at a concrete state: one finalization appends one
entry and a second is ignored. -/
theorem c6_finalize_idempotent_witness :
    finishSimulation false (finishSimulation false midBrakeState) =
      finishSimulation false midBrakeState ∧
    (finishSimulation false midBrakeState).history.length = 1 := by
  have h := c6_finalize_idempotent midBrakeState false
  exact ⟨h.1, h.2 rfl⟩

/-! ## Claim C9: the start control -/

/-- C9, counterexample.  A tick that finalizes the run (the terminal
Stopped phase) leaves the start control disabled: only `resetWorld`
re-enables it, contrary to the claim that reaching a terminal phase
re-enables the control. -/
theorem c9_terminal_phase_leaves_start_disabled :
    (engineTick nearStopState).hasFinished = true ∧
    (engineTick nearStopState).isRunning = false ∧
    (engineTick nearStopState).startEnabled = false := by
  have hrun : nearStopState.isRunning = true := rfl
  refine ⟨?_, ?_, ?_⟩ <;>
    simp [engineTick, handleUpdate, integrate, cameraStep, latchStep, driveStep,
      stopStep, finishSimulation, brakeForceOn, nearStopState, initState,
      BRAKING_FORCE_MAP, BRAKE_LINE_X, SPEED_MAP]

/-- C9, amended.  The start control is disabled when a run starts and
stays disabled through the whole run including its terminal phase
(finalization does not touch it, nor do ticks or collision
notifications); it is re-enabled only by the world reset. -/
theorem c9_start_control_enablement (s : SimState) (c : Bool)
    (ps : List (String × String)) :
    (s.isRunning = false → (startSimulation s).startEnabled = false) ∧
    (resetWorld s).startEnabled = true ∧
    (finishSimulation c s).startEnabled = s.startEnabled ∧
    (engineTick s).startEnabled = s.startEnabled ∧
    (handleCollision s ps).startEnabled = s.startEnabled := by
  refine ⟨fun h => ?_, rfl, finish_startEnabled c s, ?_, ?_⟩
  · unfold startSimulation
    simp [h]
  · unfold engineTick
    rw [integrate_startEnabled, handleUpdate_startEnabled]
  · unfold handleCollision
    split_ifs
    · rfl
    · exact collideLoop_startEnabled s ps

/-- Witness for C9's amended theorem at a concrete idle state. -/
theorem c9_start_control_enablement_witness :
    (startSimulation staleCounterState).startEnabled = false ∧
    (resetWorld staleCounterState).startEnabled = true ∧
    (engineTick staleCounterState).startEnabled = staleCounterState.startEnabled := by
  have h := c9_start_control_enablement staleCounterState false []
  exact ⟨h.1 rfl, h.2.1, h.2.2.2.1⟩

/-! ## Claim C10: finalization halts per-tick work -/

/-- C10.  Finalizing an unfinished run clears the running flag, and once
the running flag is clear the per-tick callback returns immediately: it
applies no force and leaves the whole state — velocity, position and
viewport included — untouched, and collision notifications never set the
running flag either.  Only `startSimulation` sets the flag again. -/
theorem c10_finalize_freezes_updates (s : SimState) (c : Bool)
    (ps : List (String × String)) :
    (s.hasFinished = false → (finishSimulation c s).isRunning = false) ∧
    (s.isRunning = false → handleUpdate s = (s, 0)) ∧
    (s.isRunning = false → engineTick s = s) ∧
    (s.isRunning = false → (handleCollision s ps).isRunning = false) := by
  refine ⟨fun h => ?_, fun h => handleUpdate_not_running s h,
    fun h => engineTick_not_running s h, fun h => ?_⟩
  · unfold finishSimulation
    cases c <;> simp [h]
  · unfold handleCollision
    split_ifs
    · exact h
    · exact collideLoop_isRunning s ps h

/-- Witness for C10 at a concrete idle state. -/
theorem c10_finalize_freezes_updates_witness :
    (finishSimulation false staleCounterState).isRunning = false ∧
    handleUpdate staleCounterState = (staleCounterState, 0) ∧
    engineTick staleCounterState = staleCounterState ∧
    (handleCollision staleCounterState [("car", "dummy")]).isRunning = false := by
  have h := c10_finalize_freezes_updates staleCounterState false [("car", "dummy")]
  exact ⟨h.1 rfl, h.2.1 rfl, h.2.2.1 rfl, h.2.2.2 rfl⟩

end StopSim

namespace StopSim

/-! ## Characterization of braking-phase ticks -/

theorem latchStep_fields (s : SimState) :
    (latchStep s).lowSpeedCounter = s.lowSpeedCounter ∧
    (latchStep s).hasFinished = s.hasFinished ∧
    (latchStep s).history = s.history ∧
    (latchStep s).hasCrashed = s.hasCrashed ∧
    (latchStep s).carVel = s.carVel ∧
    (latchStep s).carPos = s.carPos := by
  unfold latchStep
  split_ifs <;> exact ⟨rfl, rfl, rfl, rfl, rfl, rfl⟩

theorem driveStep_fields (s : SimState) :
    (driveStep s).1.lowSpeedCounter = s.lowSpeedCounter ∧
    (driveStep s).1.hasFinished = s.hasFinished ∧
    (driveStep s).1.history = s.history ∧
    (driveStep s).1.hasCrashed = s.hasCrashed ∧
    (driveStep s).1.brakingStarted = s.brakingStarted ∧
    (driveStep s).1.carPos = s.carPos := by
  unfold driveStep
  split_ifs <;> exact ⟨rfl, rfl, rfl, rfl, rfl, rfl⟩

theorem integrate_fields (sf : SimState × ℚ) :
    (integrate sf).lowSpeedCounter = sf.1.lowSpeedCounter ∧
    (integrate sf).hasFinished = sf.1.hasFinished ∧
    (integrate sf).history = sf.1.history ∧
    (integrate sf).isRunning = sf.1.isRunning ∧
    (integrate sf).brakingStarted = sf.1.brakingStarted := by
  unfold integrate
  split_ifs <;> exact ⟨rfl, rfl, rfl, rfl, rfl⟩

/-- A running tick is the staged pipeline camera - latch - drive - stop,
integrated. -/
theorem engineTick_running (s : SimState) (hrun : s.isRunning = true) :
    engineTick s = integrate (stopStep (driveStep (latchStep (cameraStep s))).1,
      (driveStep (latchStep (cameraStep s))).2) := by
  unfold engineTick handleUpdate
  rw [if_neg (by simp [hrun])]

/-- A running tick with braking latched reduces to the stop check over
the camera-updated state, integrated with the braking force. -/
theorem engineTick_braking (s : SimState) (hrun : s.isRunning = true)
    (hb : s.brakingStarted = true) :
    engineTick s = integrate (stopStep (cameraStep s),
      brakeForceOn (BRAKING_FORCE_MAP s.currentWeather) s.carVel) := by
  unfold engineTick handleUpdate
  rw [if_neg (by simp [hrun])]
  have e1 : latchStep (cameraStep s) = cameraStep s := by
    unfold latchStep
    rw [if_neg (by simp [cameraStep, hb])]
  rw [e1]
  unfold driveStep
  rw [if_neg (by simp [cameraStep, hb])]
  rfl

theorem stopStep_finalizes (s : SimState) (hb : s.brakingStarted = true)
    (hc : s.hasCrashed = false) (hf : s.hasFinished = false)
    (hlow : |s.carVel| < 3/10)
    (hfire : 30 < s.lowSpeedCounter + 1 ∨ |s.carVel| < 1/20) :
    stopStep s = { s with
      lowSpeedCounter := s.lowSpeedCounter + 1
      carVel := 0
      hasFinished := true
      isRunning := false
      history := ⟨s.currentSpeed, s.currentWeather,
        toFixed1 (max 0 (s.carPos - BRAKE_LINE_X) / SCALE), false⟩ :: s.history
      result := some (toFixed1 (max 0 (s.carPos - BRAKE_LINE_X) / SCALE), false) } := by
  unfold stopStep
  rw [if_pos ⟨hb, hc, hf⟩, if_pos hlow, if_pos hfire]
  unfold finishSimulation
  rw [if_neg (by simp), if_neg (by simp [hf])]
  rfl

theorem stopStep_counting (s : SimState) (hb : s.brakingStarted = true)
    (hc : s.hasCrashed = false) (hf : s.hasFinished = false)
    (hlow : |s.carVel| < 3/10)
    (hnofire : ¬(30 < s.lowSpeedCounter + 1 ∨ |s.carVel| < 1/20)) :
    stopStep s = { s with lowSpeedCounter := s.lowSpeedCounter + 1 } := by
  unfold stopStep
  rw [if_pos ⟨hb, hc, hf⟩, if_pos hlow, if_neg hnofire]

theorem stopStep_resets_counter (s : SimState) (hb : s.brakingStarted = true)
    (hc : s.hasCrashed = false) (hf : s.hasFinished = false)
    (hhigh : ¬(|s.carVel| < 3/10)) :
    stopStep s = { s with lowSpeedCounter := 0 } := by
  unfold stopStep
  rw [if_pos ⟨hb, hc, hf⟩, if_neg hhigh]

theorem stopStep_skip (s : SimState)
    (h : ¬(s.brakingStarted = true ∧ s.hasCrashed = false ∧ s.hasFinished = false)) :
    stopStep s = s := by
  unfold stopStep
  rw [if_neg h]

end StopSim

namespace StopSim

/-! ## Claim C4: stop detection -/

/-- C4.  Stop detection runs only once braking has started and the run
is neither finished nor crashed.  On such a tick: if the speed has been
low (< 0.3) for more than 30 consecutive ticks — the incremented counter
exceeds 30 — or the speed is below 0.05 outright, the velocity is forced
to exactly zero and the run is finalized as a safe stop with one new
history entry; a low-speed tick that does not fire only increments the
counter; a tick with speed at least 0.3 resets the counter to 0.  When
the run is already crashed or finished, or braking has not yet started
(and the brake line has not been reached), the tick leaves the finished
flag, the counter and the history untouched. -/
theorem c4_stop_detection (s : SimState) (hrun : s.isRunning = true) :
    (s.brakingStarted = true → s.hasCrashed = false → s.hasFinished = false →
      ((|s.carVel| < 3/10 → (30 < s.lowSpeedCounter + 1 ∨ |s.carVel| < 1/20) →
          (engineTick s).carVel = 0 ∧ (engineTick s).hasFinished = true ∧
          (engineTick s).isRunning = false ∧
          (engineTick s).history =
            ⟨s.currentSpeed, s.currentWeather,
              toFixed1 (max 0 (s.carPos - BRAKE_LINE_X) / SCALE), false⟩ :: s.history) ∧
       (|s.carVel| < 3/10 → ¬(30 < s.lowSpeedCounter + 1 ∨ |s.carVel| < 1/20) →
          (engineTick s).lowSpeedCounter = s.lowSpeedCounter + 1 ∧
          (engineTick s).hasFinished = false ∧
          (engineTick s).history = s.history) ∧
       (¬(|s.carVel| < 3/10) →
          (engineTick s).lowSpeedCounter = 0 ∧
          (engineTick s).hasFinished = false ∧
          (engineTick s).history = s.history))) ∧
    ((s.hasCrashed = true ∨ s.hasFinished = true) →
      (engineTick s).hasFinished = s.hasFinished ∧
      (engineTick s).lowSpeedCounter = s.lowSpeedCounter ∧
      (engineTick s).history = s.history) ∧
    (s.brakingStarted = false → s.carPos < BRAKE_LINE_X →
      (engineTick s).hasFinished = s.hasFinished ∧
      (engineTick s).lowSpeedCounter = s.lowSpeedCounter ∧
      (engineTick s).history = s.history) := by
  refine ⟨fun hb hc hf => ⟨fun hlow hfire => ?_, fun hlow hnofire => ?_,
    fun hhigh => ?_⟩, fun hcf => ?_, fun hb hpos => ?_⟩
  · rw [engineTick_braking s hrun hb,
      stopStep_finalizes (cameraStep s) hb hc hf hlow hfire]
    unfold integrate
    rw [if_neg (by simp)]
    exact ⟨rfl, rfl, rfl, rfl⟩
  · rw [engineTick_braking s hrun hb,
      stopStep_counting (cameraStep s) hb hc hf hlow hnofire]
    exact ⟨(integrate_fields _).1, (integrate_fields _).2.1.trans hf,
      (integrate_fields _).2.2.1⟩
  · rw [engineTick_braking s hrun hb,
      stopStep_resets_counter (cameraStep s) hb hc hf hhigh]
    exact ⟨(integrate_fields _).1, (integrate_fields _).2.1.trans hf,
      (integrate_fields _).2.2.1⟩
  · have hD1c : (driveStep (latchStep (cameraStep s))).1.hasCrashed = s.hasCrashed :=
      ((driveStep_fields _).2.2.2.1).trans ((latchStep_fields _).2.2.2.1)
    have hD1f : (driveStep (latchStep (cameraStep s))).1.hasFinished = s.hasFinished :=
      ((driveStep_fields _).2.1).trans ((latchStep_fields _).2.1)
    have hskip : stopStep (driveStep (latchStep (cameraStep s))).1 =
        (driveStep (latchStep (cameraStep s))).1 := by
      refine stopStep_skip _ ?_
      rintro ⟨h1, h2, h3⟩
      rw [hD1c] at h2
      rw [hD1f] at h3
      rcases hcf with h | h
      · rw [h] at h2
        exact Bool.noConfusion h2
      · rw [h] at h3
        exact Bool.noConfusion h3
    rw [engineTick_running s hrun, hskip]
    refine ⟨(integrate_fields _).2.1.trans hD1f, ?_, ?_⟩
    · exact ((integrate_fields _).1).trans
        (((driveStep_fields _).1).trans ((latchStep_fields _).1))
    · exact ((integrate_fields _).2.2.1).trans
        (((driveStep_fields _).2.2.1).trans ((latchStep_fields _).2.2.1))
  · have hlatch : latchStep (cameraStep s) = cameraStep s := by
      unfold latchStep
      rw [if_neg]
      rintro ⟨h1, h2⟩
      exact absurd h2 (not_le.mpr hpos)
    have hD1b : (driveStep (cameraStep s)).1.brakingStarted = s.brakingStarted :=
      (driveStep_fields _).2.2.2.2.1
    have hskip : stopStep (driveStep (cameraStep s)).1 = (driveStep (cameraStep s)).1 := by
      refine stopStep_skip _ ?_
      rintro ⟨h1, h2, h3⟩
      rw [hD1b, hb] at h1
      exact Bool.noConfusion h1
    rw [engineTick_running s hrun, hlatch, hskip]
    exact ⟨(integrate_fields _).2.1.trans ((driveStep_fields _).2.1),
      ((integrate_fields _).1).trans ((driveStep_fields _).1),
      ((integrate_fields _).2.2.1).trans ((driveStep_fields _).2.2.1)⟩

/-- Witness for C4 at a concrete braking state with velocity 0: the tick
finalizes with zero velocity, `crashed = false` and distance 11.0 m. -/
theorem c4_stop_detection_witness :
    (engineTick nearStopState).carVel = 0 ∧
    (engineTick nearStopState).hasFinished = true ∧
    (engineTick nearStopState).isRunning = false ∧
    (engineTick nearStopState).history =
      [⟨60, .sunny, toFixed1 (max 0 (nearStopState.carPos - BRAKE_LINE_X) / SCALE), false⟩] := by
  have h := ((c4_stop_detection nearStopState rfl).1 rfl rfl rfl).1
    (by norm_num [nearStopState, initState])
    (Or.inr (by norm_num [nearStopState, initState]))
  exact ⟨h.1, h.2.1, h.2.2.1, h.2.2.2⟩

end StopSim

namespace StopSim

/-! ## Claim C7: crashes require a vehicle-obstacle collision -/

theorem collideLoop_crash (s : SimState) (ps : List (String × String))
    (h0 : s.hasCrashed = false) (h1 : (collideLoop s ps).hasCrashed = true) :
    hasCarDummyPair (SimEvent.collide ps) = true := by
  induction ps with
  | nil =>
    unfold collideLoop at h1
    rw [h0] at h1
    exact Bool.noConfusion h1
  | cons p rest ih =>
    obtain ⟨a, b⟩ := p
    unfold collideLoop at h1
    by_cases hm : (a = "car" ∧ b = "dummy") ∨ (b = "car" ∧ a = "dummy")
    · unfold hasCarDummyPair
      rcases hm with ⟨ha, hb⟩ | ⟨ha, hb⟩ <;> simp [ha, hb]
    · rw [if_neg hm] at h1
      have h2 := ih h1
      simp only [hasCarDummyPair, List.any_cons] at h2 ⊢
      simp [h2]

theorem startSimulation_hasCrashed (s : SimState) (h : s.hasCrashed = false) :
    (startSimulation s).hasCrashed = false := by
  unfold startSimulation
  split_ifs <;> simp [h]

/-- C7.  Over any sequence of events delivered to a state that has not
crashed, the crashed flag can only become true if some event in the
sequence is a backend collision notification containing the pair
(vehicle, obstacle) in one order or the other; resets, starts and ticks
never set it. -/
theorem c7_crash_requires_collision (s : SimState) (es : List SimEvent)
    (h0 : s.hasCrashed = false) (h1 : (runEvents s es).hasCrashed = true) :
    es.any hasCarDummyPair = true := by
  induction es generalizing s with
  | nil =>
    unfold runEvents at h1
    rw [List.foldl_nil, h0] at h1
    exact Bool.noConfusion h1
  | cons e rest ih =>
    have hr : runEvents s (e :: rest) = runEvents (step s e) rest := rfl
    rw [hr] at h1
    by_cases hc : (step s e).hasCrashed = true
    · cases e with
      | reset =>
        exact absurd hc (by simp [step, resetWorld])
      | start =>
        exfalso
        rw [show step s .start = startSimulation s from rfl,
          startSimulation_hasCrashed s h0] at hc
        exact Bool.noConfusion hc
      | tick =>
        exfalso
        rw [show step s .tick = engineTick s from rfl,
          engineTick_hasCrashed, h0] at hc
        exact Bool.noConfusion hc
      | collide ps =>
        have hmatch : hasCarDummyPair (SimEvent.collide ps) = true := by
          rw [show step s (.collide ps) = handleCollision s ps from rfl] at hc
          unfold handleCollision at hc
          rw [if_neg (by simp [h0])] at hc
          exact collideLoop_crash s ps h0 hc
        simp [List.any_cons, hmatch]
    · have hc' : (step s e).hasCrashed = false := by
        cases h : (step s e).hasCrashed
        · rfl
        · exact absurd h hc
      have h2 := ih (step s e) hc' h1
      simp [List.any_cons, h2]

/-- Witness for C7: a single collision notification with the pair
(car, dummy) sets the crashed flag, and the event list indeed contains a
matching notification. -/
theorem c7_crash_requires_collision_witness :
    ([SimEvent.collide [("car", "dummy")]].any hasCarDummyPair) = true := by
  refine c7_crash_requires_collision (initState 60 .sunny 400) _ rfl ?_
  show (handleCollision (initState 60 .sunny 400) [("car", "dummy")]).hasCrashed = true
  unfold handleCollision collideLoop
  rw [if_neg (by simp [initState]), if_pos (Or.inl ⟨rfl, rfl⟩)]
  unfold finishSimulation
  rw [if_neg (by simp [initState]), if_neg (by simp [initState])]
  rfl

end StopSim

namespace StopSim

/-! ## Configuration fields are constant along a run -/

theorem finish_currentWeather (c : Bool) (s : SimState) :
    (finishSimulation c s).currentWeather = s.currentWeather := by
  unfold finishSimulation
  cases c <;> cases hf : s.hasFinished <;> cases hc : s.hasCrashed <;> simp [hf, hc]

theorem finish_currentSpeed (c : Bool) (s : SimState) :
    (finishSimulation c s).currentSpeed = s.currentSpeed := by
  unfold finishSimulation
  cases c <;> cases hf : s.hasFinished <;> cases hc : s.hasCrashed <;> simp [hf, hc]

theorem stopStep_currentWeather (s : SimState) :
    (stopStep s).currentWeather = s.currentWeather := by
  unfold stopStep
  split_ifs <;> simp [finish_currentWeather]

theorem stopStep_currentSpeed (s : SimState) :
    (stopStep s).currentSpeed = s.currentSpeed := by
  unfold stopStep
  split_ifs <;> simp [finish_currentSpeed]

theorem driveStep_currentWeather (s : SimState) :
    (driveStep s).1.currentWeather = s.currentWeather := by
  unfold driveStep
  split_ifs <;> rfl

theorem driveStep_currentSpeed (s : SimState) :
    (driveStep s).1.currentSpeed = s.currentSpeed := by
  unfold driveStep
  split_ifs <;> rfl

theorem latchStep_currentWeather (s : SimState) :
    (latchStep s).currentWeather = s.currentWeather := by
  unfold latchStep
  split_ifs <;> rfl

theorem latchStep_currentSpeed (s : SimState) :
    (latchStep s).currentSpeed = s.currentSpeed := by
  unfold latchStep
  split_ifs <;> rfl

theorem integrate_currentWeather (sf : SimState × ℚ) :
    (integrate sf).currentWeather = sf.1.currentWeather := by
  unfold integrate
  split_ifs <;> rfl

theorem integrate_currentSpeed (sf : SimState × ℚ) :
    (integrate sf).currentSpeed = sf.1.currentSpeed := by
  unfold integrate
  split_ifs <;> rfl

theorem handleUpdate_currentWeather (s : SimState) :
    (handleUpdate s).1.currentWeather = s.currentWeather := by
  unfold handleUpdate
  split_ifs
  · rfl
  · rw [stopStep_currentWeather, driveStep_currentWeather, latchStep_currentWeather]
    rfl

theorem handleUpdate_currentSpeed (s : SimState) :
    (handleUpdate s).1.currentSpeed = s.currentSpeed := by
  unfold handleUpdate
  split_ifs
  · rfl
  · rw [stopStep_currentSpeed, driveStep_currentSpeed, latchStep_currentSpeed]
    rfl

theorem engineTick_currentWeather (s : SimState) :
    (engineTick s).currentWeather = s.currentWeather := by
  unfold engineTick
  rw [integrate_currentWeather, handleUpdate_currentWeather]

theorem engineTick_currentSpeed (s : SimState) :
    (engineTick s).currentSpeed = s.currentSpeed := by
  unfold engineTick
  rw [integrate_currentSpeed, handleUpdate_currentSpeed]

theorem SPEED_MAP_nonneg (n : ℕ) : 0 ≤ SPEED_MAP n := by
  unfold SPEED_MAP
  split <;> norm_num

end StopSim

namespace StopSim

/-! ## Arithmetic facts about one braking step -/

/-- Monotonicity of the per-tick velocity update: a run that is slower
and brakes at least as hard stays slower (above the no-force corner). -/
theorem brake_vel_mono (b1 b2 v1 v2 : ℚ) (h0 : 0 ≤ b2) (hb : b2 ≤ b1)
    (h1 : b1 ≤ 1) (hv : 1/100 < v1) (h12 : v1 ≤ v2) :
    v1 + brakeForceOn b1 v1 / CAR_MASS ≤ v2 + brakeForceOn b2 v2 / CAR_MASS := by
  unfold brakeForceOn CAR_MASS
  split_ifs with ha hb' hc' hd' he' <;>
    nlinarith [mul_nonneg (sub_nonneg.mpr h12) (sub_nonneg.mpr hb),
      mul_nonneg (sub_nonneg.mpr h12) h0,
      mul_nonneg (by linarith : (0:ℚ) ≤ v1) (sub_nonneg.mpr hb)]

/-- The braking step never drives a non-negative velocity negative. -/
theorem brake_vel_nonneg (b v : ℚ) (h0 : 0 ≤ b) (h1 : b ≤ 1) (hv : 0 ≤ v) :
    0 ≤ v + brakeForceOn b v / CAR_MASS := by
  unfold brakeForceOn CAR_MASS
  split_ifs <;> nlinarith

/-- A braking step from speed at least 0.05 stays above the 0.01
no-force corner. -/
theorem brake_vel_lb (b v : ℚ) (h0 : 0 ≤ b) (h1 : b ≤ 1) (hv : 1/20 ≤ v) :
    1/100 < v + brakeForceOn b v / CAR_MASS := by
  unfold brakeForceOn CAR_MASS
  split_ifs <;> nlinarith

end StopSim

namespace StopSim

/-! ## Closed forms for the four kinds of running tick -/

/-- A braking tick that fires the stop condition: velocity forced to
zero, run finalized, one history row appended, position frozen. -/
theorem engineTick_finalize (s : SimState) (hrun : s.isRunning = true)
    (hb : s.brakingStarted = true) (hc : s.hasCrashed = false)
    (hf : s.hasFinished = false) (hlow : |s.carVel| < 3/10)
    (hfire : 30 < s.lowSpeedCounter + 1 ∨ |s.carVel| < 1/20) :
    engineTick s = { s with
      viewMin := s.carPos - 200
      lowSpeedCounter := s.lowSpeedCounter + 1
      carVel := 0
      hasFinished := true
      isRunning := false
      history := finEntry s :: s.history
      result := some (distView s, false) } := by
  rw [engineTick_braking s hrun hb,
    stopStep_finalizes (cameraStep s) hb hc hf hlow hfire]
  unfold integrate
  rw [if_neg (by simp)]
  rfl

/-- A braking tick that does not fire the stop condition: the counter is
bumped or cleared and the braking force is integrated into velocity and
position. -/
theorem engineTick_brakeStep (s : SimState) (hrun : s.isRunning = true)
    (hb : s.brakingStarted = true) (hc : s.hasCrashed = false)
    (hf : s.hasFinished = false)
    (hnofire : ¬(|s.carVel| < 3/10 ∧ (30 < s.lowSpeedCounter + 1 ∨ |s.carVel| < 1/20))) :
    engineTick s = { s with
      viewMin := s.carPos - 200
      lowSpeedCounter := if |s.carVel| < 3/10 then s.lowSpeedCounter + 1 else 0
      carVel := s.carVel + brakeForceOn (BRAKING_FORCE_MAP s.currentWeather) s.carVel / CAR_MASS
      carPos := s.carPos +
        (s.carVel + brakeForceOn (BRAKING_FORCE_MAP s.currentWeather) s.carVel / CAR_MASS) } := by
  rw [engineTick_braking s hrun hb]
  by_cases hlow : |s.carVel| < 3/10
  · rw [stopStep_counting (cameraStep s) hb hc hf hlow
      (fun hfire => hnofire ⟨hlow, hfire⟩)]
    unfold integrate
    rw [if_pos (by exact hrun), if_pos hlow]
    rfl
  · rw [stopStep_resets_counter (cameraStep s) hb hc hf hlow]
    unfold integrate
    rw [if_pos (by exact hrun), if_neg hlow]
    rfl

/-- The first tick at or past the brake line behaves exactly like a tick
of the same state with braking already latched. -/
theorem engineTick_latch (s : SimState) (hrun : s.isRunning = true)
    (hb : s.brakingStarted = false) (hpos : BRAKE_LINE_X ≤ s.carPos) :
    engineTick s = engineTick { s with brakingStarted := true } := by
  rw [engineTick_running s hrun, engineTick_running _ (by exact hrun)]
  have h1 : latchStep (cameraStep s) = cameraStep { s with brakingStarted := true } := by
    unfold latchStep
    rw [if_pos ⟨(by exact hb), (by exact hpos)⟩]
    rfl
  have h2 : latchStep (cameraStep { s with brakingStarted := true }) =
      cameraStep { s with brakingStarted := true } := by
    unfold latchStep
    rw [if_neg (by simp [cameraStep])]
  rw [h1, h2]

/-- A cruise tick strictly before the brake line: the cruise-speed floor
is integrated, nothing else changes. -/
theorem engineTick_cruise (s : SimState) (hrun : s.isRunning = true)
    (hb : s.brakingStarted = false) (hpos : s.carPos < BRAKE_LINE_X) :
    engineTick s = { s with
      viewMin := s.carPos - 200
      carVel := if s.carVel < SPEED_MAP s.currentSpeed then SPEED_MAP s.currentSpeed else s.carVel
      carPos := s.carPos +
        (if s.carVel < SPEED_MAP s.currentSpeed then SPEED_MAP s.currentSpeed else s.carVel) } := by
  rw [engineTick_running s hrun]
  have hlatch : latchStep (cameraStep s) = cameraStep s := by
    unfold latchStep
    rw [if_neg]
    rintro ⟨h1, h2⟩
    exact absurd h2 (not_le.mpr hpos)
  rw [hlatch]
  unfold driveStep
  rw [if_pos (by exact hb)]
  have hskip : ∀ t : SimState, t.brakingStarted = false → stopStep t = t := by
    intro t ht
    refine stopStep_skip t ?_
    rintro ⟨h1, h2, h3⟩
    rw [ht] at h1
    exact Bool.noConfusion h1
  by_cases hv : s.carVel < SPEED_MAP s.currentSpeed
  · rw [if_pos (by exact hv)]
    rw [hskip _ (by exact hb)]
    unfold integrate
    rw [if_pos (by exact hrun)]
    simp [cameraStep, hv]
  · rw [if_neg (by exact hv)]
    rw [hskip _ (by exact hb)]
    unfold integrate
    rw [if_pos (by exact hrun)]
    simp [cameraStep, hv]

end StopSim

namespace StopSim

set_option maxHeartbeats 1000000

theorem inv_tick (s1 s2 : SimState)
    (hb0 : 0 ≤ BRAKING_FORCE_MAP s2.currentWeather)
    (hb12 : BRAKING_FORCE_MAP s2.currentWeather ≤ BRAKING_FORCE_MAP s1.currentWeather)
    (hb1 : BRAKING_FORCE_MAP s1.currentWeather ≤ 1)
    (h : Inv s1 s2) : Inv (engineTick s1) (engineTick s2) := by
  obtain ⟨hsp, hc1, hc2, hpos, hf1z, hh1, hf2z, hh2, hff, hphase⟩ := h
  rcases hphase with hA | hB | hC
  · -- phase A: lock-step before the brake line
    obtain ⟨ha1, ha2, hab1, hab2, hapos, havel, havnn, hac, har⟩ := hA
    cases hrun1 : s1.isRunning with
    | false =>
      have hrun2 : s2.isRunning = false := by rw [← har]; exact hrun1
      rw [engineTick_not_running s1 hrun1, engineTick_not_running s2 hrun2]
      exact ⟨hsp, hc1, hc2, hpos, hf1z, hh1, hf2z, hh2, hff,
        Or.inl ⟨ha1, ha2, hab1, hab2, hapos, havel, havnn, hac, har⟩⟩
    | true =>
      have hrun2 : s2.isRunning = true := by rw [← har]; exact hrun1
      by_cases hbl : BRAKE_LINE_X ≤ s1.carPos
      · -- latch tick
        have hbl2 : BRAKE_LINE_X ≤ s2.carPos := by rw [← hapos]; exact hbl
        rw [engineTick_latch s1 hrun1 hab1 hbl, engineTick_latch s2 hrun2 hab2 hbl2]
        by_cases hfire : |s1.carVel| < 3/10 ∧ (30 < s1.lowSpeedCounter + 1 ∨ |s1.carVel| < 1/20)
        · have hfire2 : |s2.carVel| < 3/10 ∧ (30 < s2.lowSpeedCounter + 1 ∨ |s2.carVel| < 1/20) := by
            rw [← havel, ← hac]; exact hfire
          rw [engineTick_finalize { s1 with brakingStarted := true } hrun1 rfl hc1 ha1
              hfire.1 hfire.2,
            engineTick_finalize { s2 with brakingStarted := true } hrun2 rfl hc2 ha2
              hfire2.1 hfire2.2]
          refine ⟨hsp, hc1, hc2, hpos, fun _ => ⟨rfl, ?_⟩, fun hx => Bool.noConfusion hx,
            fun _ => ⟨rfl, ?_⟩, fun hx => Bool.noConfusion hx, fun _ => rfl,
            Or.inr (Or.inl ⟨rfl, fun hx => Bool.noConfusion hx⟩)⟩
          · show finEntry _ :: s1.history = _
            rw [hh1 ha1]
            rfl
          · show finEntry _ :: s2.history = _
            rw [hh2 ha2]
            rfl
        · have hfire2 : ¬(|s2.carVel| < 3/10 ∧ (30 < s2.lowSpeedCounter + 1 ∨ |s2.carVel| < 1/20)) := by
            rw [← havel, ← hac]; exact hfire
          rw [engineTick_brakeStep { s1 with brakingStarted := true } hrun1 rfl hc1 ha1 hfire,
            engineTick_brakeStep { s2 with brakingStarted := true } hrun2 rfl hc2 ha2 hfire2]
          have hvlb : 1/20 ≤ s1.carVel := by
            rw [abs_of_nonneg havnn] at hfire
            rcases not_and_or.mp hfire with habs | hdisj
            · linarith [not_lt.mp habs]
            · have := not_or.mp hdisj
              linarith [not_lt.mp this.2]
          have hmono := brake_vel_mono (BRAKING_FORCE_MAP s1.currentWeather)
            (BRAKING_FORCE_MAP s2.currentWeather) s1.carVel s2.carVel
            hb0 hb12 hb1 (by linarith) (le_of_eq havel)
          have hlb := brake_vel_lb (BRAKING_FORCE_MAP s1.currentWeather) s1.carVel
            (hb0.trans hb12) hb1 hvlb
          have hnn2 : 0 ≤ s2.carVel + brakeForceOn (BRAKING_FORCE_MAP s2.currentWeather) s2.carVel / CAR_MASS :=
            brake_vel_nonneg _ _ hb0 (hb12.trans hb1) (by rw [← havel]; exact havnn)
          have hcnt : (if |s2.carVel| < 3/10 then s2.lowSpeedCounter + 1 else 0) ≤
              (if |s1.carVel| < 3/10 then s1.lowSpeedCounter + 1 else 0) := by
            rw [havel, hac]
          refine ⟨hsp, hc1, hc2, add_le_add hpos hmono,
            fun hx => absurd (ha1 ▸ hx) (by simp), fun _ => hh1 ha1,
            fun hx => absurd (ha2 ▸ hx) (by simp), fun _ => hh2 ha2,
            fun hx => absurd (ha2 ▸ hx) (by simp),
            Or.inr (Or.inr ⟨ha1, ha2, rfl, rfl, hrun1, hrun2, hlb, hmono, hcnt⟩)⟩
      · -- cruise tick
        have hbl2 : s2.carPos < BRAKE_LINE_X := by rw [← hapos]; exact not_le.mp hbl
        rw [engineTick_cruise s1 hrun1 hab1 (not_le.mp hbl), engineTick_cruise s2 hrun2 hab2 hbl2]
        have hveq : (if s1.carVel < SPEED_MAP s1.currentSpeed then SPEED_MAP s1.currentSpeed else s1.carVel)
            = (if s2.carVel < SPEED_MAP s2.currentSpeed then SPEED_MAP s2.currentSpeed else s2.carVel) := by
          rw [havel, hsp]
        have hvnn : 0 ≤ (if s1.carVel < SPEED_MAP s1.currentSpeed then SPEED_MAP s1.currentSpeed else s1.carVel) := by
          split_ifs
          · exact SPEED_MAP_nonneg _
          · exact havnn
        refine ⟨hsp, hc1, hc2, by rw [hapos, hveq], fun hx => absurd (ha1 ▸ hx) (by simp),
          fun _ => hh1 ha1, fun hx => absurd (ha2 ▸ hx) (by simp), fun _ => hh2 ha2,
          fun hx => absurd (ha2 ▸ hx) (by simp),
          Or.inl ⟨ha1, ha2, hab1, hab2, by rw [hapos, hveq], hveq, hvnn, hac, har⟩⟩
  · -- phase B: run 1 already finalized
    obtain ⟨hbfin, hbrest⟩ := hB
    obtain ⟨hrun1f, hhist1⟩ := hf1z hbfin
    rw [engineTick_not_running s1 hrun1f]
    cases hfin2 : s2.hasFinished with
    | true =>
      obtain ⟨hrun2f, _⟩ := hf2z hfin2
      rw [engineTick_not_running s2 hrun2f]
      exact ⟨hsp, hc1, hc2, hpos, hf1z, hh1, hf2z, hh2, hff, Or.inr (Or.inl ⟨hbfin, hbrest⟩)⟩
    | false =>
      obtain ⟨hb2brake, hb2vnn⟩ := hbrest hfin2
      cases hrun2 : s2.isRunning with
      | false =>
        rw [engineTick_not_running s2 hrun2]
        exact ⟨hsp, hc1, hc2, hpos, hf1z, hh1, hf2z, hh2, hff, Or.inr (Or.inl ⟨hbfin, hbrest⟩)⟩
      | true =>
        by_cases hfire : |s2.carVel| < 3/10 ∧ (30 < s2.lowSpeedCounter + 1 ∨ |s2.carVel| < 1/20)
        · rw [engineTick_finalize s2 hrun2 hb2brake hc2 hfin2 hfire.1 hfire.2]
          refine ⟨hsp, hc1, hc2, hpos, hf1z, hh1, fun _ => ⟨rfl, ?_⟩,
            fun hx => Bool.noConfusion hx, fun _ => hbfin,
            Or.inr (Or.inl ⟨hbfin, fun hx => Bool.noConfusion hx⟩)⟩
          show finEntry _ :: s2.history = _
          rw [hh2 hfin2]
          rfl
        · rw [engineTick_brakeStep s2 hrun2 hb2brake hc2 hfin2 hfire]
          have hnn2 : 0 ≤ s2.carVel + brakeForceOn (BRAKING_FORCE_MAP s2.currentWeather) s2.carVel / CAR_MASS :=
            brake_vel_nonneg _ _ hb0 (hb12.trans hb1) hb2vnn
          refine ⟨hsp, hc1, hc2, hpos.trans (le_add_of_nonneg_right hnn2), hf1z, hh1,
            fun hx => absurd (hfin2 ▸ hx) (by simp), fun _ => hh2 hfin2,
            fun hx => absurd (hfin2 ▸ hx) (by simp),
            Or.inr (Or.inl ⟨hbfin, fun _ => ⟨hb2brake, hnn2⟩⟩)⟩
  · -- phase C: both braking
    obtain ⟨hcf1, hcf2, hcb1, hcb2, hcr1, hcr2, hcv, hcvv, hcc⟩ := hC
    have hv1pos : (0:ℚ) < s1.carVel := lt_trans (by norm_num) hcv
    have hv2pos : (0:ℚ) < s2.carVel := lt_of_lt_of_le hv1pos hcvv
    by_cases hP1 : |s1.carVel| < 3/10 ∧ (30 < s1.lowSpeedCounter + 1 ∨ |s1.carVel| < 1/20)
    · by_cases hP2 : |s2.carVel| < 3/10 ∧ (30 < s2.lowSpeedCounter + 1 ∨ |s2.carVel| < 1/20)
      · rw [engineTick_finalize s1 hcr1 hcb1 hc1 hcf1 hP1.1 hP1.2,
          engineTick_finalize s2 hcr2 hcb2 hc2 hcf2 hP2.1 hP2.2]
        refine ⟨hsp, hc1, hc2, hpos, fun _ => ⟨rfl, ?_⟩, fun hx => Bool.noConfusion hx,
          fun _ => ⟨rfl, ?_⟩, fun hx => Bool.noConfusion hx, fun _ => rfl,
          Or.inr (Or.inl ⟨rfl, fun hx => Bool.noConfusion hx⟩)⟩
        · show finEntry _ :: s1.history = _
          rw [hh1 hcf1]
          rfl
        · show finEntry _ :: s2.history = _
          rw [hh2 hcf2]
          rfl
      · rw [engineTick_finalize s1 hcr1 hcb1 hc1 hcf1 hP1.1 hP1.2,
          engineTick_brakeStep s2 hcr2 hcb2 hc2 hcf2 hP2]
        have hnn2 : 0 ≤ s2.carVel + brakeForceOn (BRAKING_FORCE_MAP s2.currentWeather) s2.carVel / CAR_MASS :=
          brake_vel_nonneg _ _ hb0 (hb12.trans hb1) hv2pos.le
        refine ⟨hsp, hc1, hc2, hpos.trans (le_add_of_nonneg_right hnn2),
          fun _ => ⟨rfl, ?_⟩, fun hx => Bool.noConfusion hx,
          fun hx => absurd (hcf2 ▸ hx) (by simp), fun _ => hh2 hcf2,
          fun hx => absurd (hcf2 ▸ hx) (by simp),
          Or.inr (Or.inl ⟨rfl, fun _ => ⟨hcb2, hnn2⟩⟩)⟩
        show finEntry _ :: s1.history = _
        rw [hh1 hcf1]
        rfl
    · have hP2 : ¬(|s2.carVel| < 3/10 ∧ (30 < s2.lowSpeedCounter + 1 ∨ |s2.carVel| < 1/20)) := by
        intro hx
        apply hP1
        rw [abs_of_pos hv2pos] at hx
        rw [abs_of_pos hv1pos]
        refine ⟨by linarith [hx.1], ?_⟩
        rcases hx.2 with hcnt | hv
        · exact Or.inl (by omega)
        · exact Or.inr (by linarith)
      rw [engineTick_brakeStep s1 hcr1 hcb1 hc1 hcf1 hP1,
        engineTick_brakeStep s2 hcr2 hcb2 hc2 hcf2 hP2]
      have hvlb : 1/20 ≤ s1.carVel := by
        rw [abs_of_pos hv1pos] at hP1
        rcases not_and_or.mp hP1 with habs | hdisj
        · linarith [not_lt.mp habs]
        · have := not_or.mp hdisj
          linarith [not_lt.mp this.2]
      have hmono := brake_vel_mono (BRAKING_FORCE_MAP s1.currentWeather)
        (BRAKING_FORCE_MAP s2.currentWeather) s1.carVel s2.carVel
        hb0 hb12 hb1 hcv hcvv
      have hlb := brake_vel_lb (BRAKING_FORCE_MAP s1.currentWeather) s1.carVel
        (hb0.trans hb12) hb1 hvlb
      have hcnt : (if |s2.carVel| < 3/10 then s2.lowSpeedCounter + 1 else 0) ≤
          (if |s1.carVel| < 3/10 then s1.lowSpeedCounter + 1 else 0) := by
        by_cases h2 : |s2.carVel| < 3/10
        · have h1 : |s1.carVel| < 3/10 := by
            rw [abs_of_pos hv1pos]
            rw [abs_of_pos hv2pos] at h2
            linarith
          rw [if_pos h2, if_pos h1]
          omega
        · rw [if_neg h2]
          exact Nat.zero_le _
      refine ⟨hsp, hc1, hc2, add_le_add hpos hmono,
        fun hx => absurd (hcf1 ▸ hx) (by simp), fun _ => hh1 hcf1,
        fun hx => absurd (hcf2 ▸ hx) (by simp), fun _ => hh2 hcf2,
        fun hx => absurd (hcf2 ▸ hx) (by simp),
        Or.inr (Or.inr ⟨hcf1, hcf2, hcb1, hcb2, hcr1, hcr2, hlb, hmono, hcnt⟩)⟩

end StopSim

namespace StopSim

/-- Both runs start in lock-step after a reset and start press. -/
theorem inv_init (sp : ℕ) (d : ℚ) (w1 w2 : Weather) :
    Inv (startSimulation (resetWorld (initState sp w1 d)))
      (startSimulation (resetWorld (initState sp w2 d))) := by
  have e : ∀ w : Weather, startSimulation (resetWorld (initState sp w d)) =
      { currentSpeed := sp, currentWeather := w, currentObstacleDistance := d,
        lowSpeedCounter := 0, hasCrashed := false, hasFinished := false,
        isRunning := true, brakingStarted := false, startEnabled := false,
        carPos := startPosX, carVel := SPEED_MAP sp,
        viewMin := startPosX - 200, history := [], result := none } := by
    intro w
    unfold startSimulation resetWorld initState
    rw [if_neg (by simp)]
  rw [e w1, e w2]
  exact ⟨rfl, rfl, rfl, le_refl _, fun hx => Bool.noConfusion hx, fun _ => rfl,
    fun hx => Bool.noConfusion hx, fun _ => rfl, fun hx => Bool.noConfusion hx,
    Or.inl ⟨rfl, rfl, rfl, rfl, rfl, rfl, SPEED_MAP_nonneg sp, rfl, rfl⟩⟩

/-- The weather configuration is constant along a run. -/
theorem runSim_weather (sp : ℕ) (w : Weather) (d : ℚ) (n : ℕ) :
    (runSim sp w d n).currentWeather = w := by
  induction n with
  | zero =>
    show (startSimulation (resetWorld (initState sp w d))).currentWeather = w
    unfold startSimulation resetWorld initState
    rw [if_neg (by simp)]
  | succ m ih =>
    show (engineTick (runSim sp w d m)).currentWeather = w
    rw [engineTick_currentWeather]
    exact ih

/-- C8.  Holding the speed class and obstacle distance fixed, a run on a
surface with the larger braking coefficient (run 1) never gets further
than a run on a smaller one (run 2): after any number of ticks its
position — and hence its displayed braking distance — is no larger, it
has finalized whenever run 2 has, and each run's history is exactly one
safe-stop row recording its own (frozen) distance once it finalizes.
Instantiated at the script's coefficients (dry 0.15 > wet 0.08 >
icy 0.02) this is the required ordering dry ≤ wet ≤ icy. -/
theorem c8_braking_distance_surface_ordering (sp : ℕ) (d : ℚ) (w1 w2 : Weather) (n : ℕ)
    (hb0 : 0 ≤ BRAKING_FORCE_MAP w2)
    (hb12 : BRAKING_FORCE_MAP w2 ≤ BRAKING_FORCE_MAP w1)
    (hb1 : BRAKING_FORCE_MAP w1 ≤ 1) :
    (runSim sp w1 d n).carPos ≤ (runSim sp w2 d n).carPos ∧
    ((runSim sp w2 d n).hasFinished && !(runSim sp w1 d n).hasFinished) = false ∧
    (runSim sp w1 d n).history =
      (if (runSim sp w1 d n).hasFinished = true then [finEntry (runSim sp w1 d n)] else []) ∧
    (runSim sp w2 d n).history =
      (if (runSim sp w2 d n).hasFinished = true then [finEntry (runSim sp w2 d n)] else []) ∧
    distView (runSim sp w1 d n) ≤ distView (runSim sp w2 d n) := by
  have hinv : Inv (runSim sp w1 d n) (runSim sp w2 d n) := by
    induction n with
    | zero => exact inv_init sp d w1 w2
    | succ m ih =>
      have h1 := runSim_weather sp w1 d m
      have h2 := runSim_weather sp w2 d m
      show Inv (engineTick (runSim sp w1 d m)) (engineTick (runSim sp w2 d m))
      exact inv_tick _ _ (by rw [h2]; exact hb0) (by rw [h1, h2]; exact hb12)
        (by rw [h1]; exact hb1) ih
  obtain ⟨hsp, hc1, hc2, hpos, hf1z, hh1, hf2z, hh2, hff, _⟩ := hinv
  refine ⟨hpos, ?_, ?_, ?_, ?_⟩
  · cases h2 : (runSim sp w2 d n).hasFinished
    · simp
    · simp [hff h2]
  · cases h1 : (runSim sp w1 d n).hasFinished
    · simpa using hh1 h1
    · simpa using (hf1z h1).2
  · cases h2 : (runSim sp w2 d n).hasFinished
    · simpa using hh2 h2
    · simpa using (hf2z h2).2
  · unfold distView
    apply toFixed1_mono
    have h3 : max 0 ((runSim sp w1 d n).carPos - BRAKE_LINE_X) ≤
        max 0 ((runSim sp w2 d n).carPos - BRAKE_LINE_X) :=
      max_le_max (le_refl 0) (by linarith)
    unfold SCALE
    linarith

/-- Witness for C8 on the dry and wet surfaces at speed class 60,
obstacle at 400 px, after 10 ticks. -/
theorem c8_braking_distance_surface_ordering_witness :
    (runSim 60 .sunny 400 10).carPos ≤ (runSim 60 .rainy 400 10).carPos ∧
    ((runSim 60 .rainy 400 10).hasFinished && !(runSim 60 .sunny 400 10).hasFinished) = false ∧
    (runSim 60 .sunny 400 10).history =
      (if (runSim 60 .sunny 400 10).hasFinished = true
       then [finEntry (runSim 60 .sunny 400 10)] else []) ∧
    (runSim 60 .rainy 400 10).history =
      (if (runSim 60 .rainy 400 10).hasFinished = true
       then [finEntry (runSim 60 .rainy 400 10)] else []) ∧
    distView (runSim 60 .sunny 400 10) ≤ distView (runSim 60 .rainy 400 10) :=
  c8_braking_distance_surface_ordering 60 400 .sunny .rainy 10
    (by norm_num [BRAKING_FORCE_MAP]) (by norm_num [BRAKING_FORCE_MAP])
    (by norm_num [BRAKING_FORCE_MAP])

end StopSim
